import Mathlib

/-!
Shallow embedding of `src/charts/power-monitor/power_monitor.py` (class
`PowerMonitor`): the power-availability test, the phased shutdown sequence
`execute_shutdown_sequence`, the per-node actuator wrappers, and the
power-restoration procedure `restore_power_procedures`, together with
theorems about their behaviour.

Modelling conventions:
* Elapsed outage time (a Python float of seconds) is a rational number.
* The integer thresholds read from the environment
  (`SHUTDOWN_PI5_01_DELAY`, `SHUTDOWN_OTHERS_DELAY`) are integers in a
  `Config` record together with the node roster and the flags
  `dry_run` / `skip_shutdown`; Python's hard-coded literals `30`, `60`,
  `300` stay literals.
* The external world (Kubernetes patch, `kubectl drain`, ssh) is an
  `ActuatorEnv` of oracles giving each call's outcome; one oracle is
  supplied per poll.  Each actuator method invocation is recorded as an
  `Action` in a trace, in program order.
* Python's mutable fields `power_outage_start`, `shutdown_initiated`,
  `nodes_shutdown` form the state record `MState`.
-/

namespace PowerMonitor

/-- One actuator-method invocation on a named node, as issued by the
monitor (`cordon_node`, `uncordon_node`, `drain_node`, `shutdown_node`). -/
inductive Action where
  | cordon (node : String)
  | uncordon (node : String)
  | drain (node : String)
  | powerOff (node : String)
deriving DecidableEq

/-- The node an action is aimed at. -/
def actionNode : Action → String
  | .cordon n => n
  | .uncordon n => n
  | .drain n => n
  | .powerOff n => n

/-- The configuration fields of `PowerMonitor.__init__` that the shutdown
and recovery logic reads.  Only the two `SHUTDOWN_*_DELAY` thresholds are
configurable durations; the other phase guards are literals in the code. -/
structure Config where
  shutdown_pi5_01_delay : ℤ
  shutdown_others_delay : ℤ
  critical_node : String
  priority_shutdown_nodes : List String
  secondary_shutdown_nodes : List String
  dry_run : Bool
  skip_shutdown : Bool

/-- The mutable state of the monitor: `self.power_outage_start`,
`self.shutdown_initiated` and the set `self.nodes_shutdown`. -/
structure MState where
  power_outage_start : Option ℚ
  shutdown_initiated : Bool
  nodes_shutdown : Finset String

/-- The state the monitor starts in, and that
`restore_power_procedures` resets to. -/
def initState : MState := ⟨none, false, ∅⟩

/-- Outcome of one `shutdown_node` attempt on the non-dry-run path:
an exception anywhere in the body, a node with no `InternalIP` address,
or an ssh command that ran to completion with some exit code. -/
inductive PowerOffOutcome where
  | raisesException
  | noInternalIP
  | completes (exitCode : ℤ)
deriving DecidableEq

/-- Outcomes the external world gives to each actuator call during one
poll: whether `patch_node` (cordon/uncordon) succeeds, whether
`kubectl drain` succeeds (exit 0 and no exception), and what happens to
the ssh power-off. -/
structure ActuatorEnv where
  cordonOk : String → Bool
  uncordonOk : String → Bool
  drainOk : String → Bool
  powerOff : String → PowerOffOutcome

/-- Python `str.strip()` restricted to ASCII whitespace: drop whitespace
characters from both ends of the string. -/
def isPySpace (c : Char) : Bool :=
  c = ' ' || c = '\t' || c = '\n' || c = '\r' || c = '\x0b' || c = '\x0c'

/-- Python `node.strip()` as used on every roster entry. -/
def pyStrip (s : String) : String :=
  ⟨((s.data.dropWhile isPySpace).reverse.dropWhile isPySpace).reverse⟩

/-- Python `state.lower()` restricted to ASCII: lower-case every
character. -/
def pyLower (s : String) : String :=
  ⟨s.data.map Char.toLower⟩

/-- `cordon_node`: dry-run reports success without acting, otherwise the
result of the `patch_node` call. -/
def cordon_node (cfg : Config) (env : ActuatorEnv) (n : String) : Bool :=
  if cfg.dry_run then true else env.cordonOk n

/-- `uncordon_node`: dry-run reports success without acting, otherwise the
result of the `patch_node` call. -/
def uncordon_node (cfg : Config) (env : ActuatorEnv) (n : String) : Bool :=
  if cfg.dry_run then true else env.uncordonOk n

/-- `drain_node`: dry-run reports success; otherwise success iff
`kubectl drain` exits 0 without raising. -/
def drain_node (cfg : Config) (env : ActuatorEnv) (n : String) : Bool :=
  if cfg.dry_run then true else env.drainOk n

/-- `shutdown_node`: under `dry_run` or `skip_shutdown` the node is added
to `nodes_shutdown` and success is reported.  Otherwise: an exception or a
missing `InternalIP` yields failure with no state change, while an ssh
command that runs to completion yields success and adds the node to
`nodes_shutdown` — the exit code of the remote command is not examined. -/
def shutdown_node (cfg : Config) (env : ActuatorEnv) (n : String) (s : MState) :
    Bool × MState :=
  if cfg.dry_run || cfg.skip_shutdown then
    (true, { s with nodes_shutdown := insert n s.nodes_shutdown })
  else
    match env.powerOff n with
    | .raisesException => (false, s)
    | .noInternalIP => (false, s)
    | .completes _ => (true, { s with nodes_shutdown := insert n s.nodes_shutdown })

/-- The body of phases 3 and 5: iterate over a roster, strip each name,
skip the critical node and nodes already recorded shut down, and call
`shutdown_node` on the rest, threading the state left to right. -/
def powerOffLoop (cfg : Config) (env : ActuatorEnv) :
    List String → MState → MState × List Action
  | [], s => (s, [])
  | node :: rest, s =>
    let n := pyStrip node
    if n = cfg.critical_node ∨ n ∈ s.nodes_shutdown then
      powerOffLoop cfg env rest s
    else
      let s1 := (shutdown_node cfg env n s).2
      let r := powerOffLoop cfg env rest s1
      (r.1, Action.powerOff n :: r.2)

/-- Phase 1 body: cordon every stripped priority node other than the
critical node (membership in `nodes_shutdown` is not checked here). -/
def cordonActs (cfg : Config) : List Action :=
  (cfg.priority_shutdown_nodes.map pyStrip).filterMap
    (fun n => if n = cfg.critical_node then none else some (Action.cordon n))

/-- Phase 2 body: drain every stripped priority node that is neither the
critical node nor recorded shut down. -/
def drainActs (cfg : Config) (s : MState) : List Action :=
  (cfg.priority_shutdown_nodes.map pyStrip).filterMap
    (fun n => if n = cfg.critical_node ∨ n ∈ s.nodes_shutdown then none
              else some (Action.drain n))

/-- Phase 4 body: cordon then drain every stripped secondary node that is
neither the critical node nor recorded shut down. -/
def cdBlocks (cfg : Config) (s : MState) : List Action :=
  ((cfg.secondary_shutdown_nodes.map pyStrip).map
    (fun n => if n = cfg.critical_node ∨ n ∈ s.nodes_shutdown then []
              else [Action.cordon n, Action.drain n])).flatten

/-- Phase 1 of `execute_shutdown_sequence`: guarded by
`elapsed_time >= 30 and not self.shutdown_initiated`; sets the
`shutdown_initiated` latch before cordoning. -/
def phase1 (cfg : Config) (e : ℚ) (s : MState) : MState × List Action :=
  if (30 : ℚ) ≤ e ∧ s.shutdown_initiated = false then
    ({ s with shutdown_initiated := true }, cordonActs cfg)
  else (s, [])

/-- Phase 2: guarded by `elapsed_time >= 60`. -/
def phase2 (cfg : Config) (e : ℚ) (s : MState) : List Action :=
  if (60 : ℚ) ≤ e then drainActs cfg s else []

/-- Phase 3: guarded by `elapsed_time >= self.shutdown_pi5_01_delay`. -/
def phase3 (cfg : Config) (env : ActuatorEnv) (e : ℚ) (s : MState) :
    MState × List Action :=
  if (cfg.shutdown_pi5_01_delay : ℚ) ≤ e then
    powerOffLoop cfg env cfg.priority_shutdown_nodes s
  else (s, [])

/-- Phase 4: guarded by `elapsed_time >= 300`. -/
def phase4 (cfg : Config) (e : ℚ) (s : MState) : List Action :=
  if (300 : ℚ) ≤ e then cdBlocks cfg s else []

/-- Phase 5: guarded by `elapsed_time >= self.shutdown_others_delay`. -/
def phase5 (cfg : Config) (env : ActuatorEnv) (e : ℚ) (s : MState) :
    MState × List Action :=
  if (cfg.shutdown_others_delay : ℚ) ≤ e then
    powerOffLoop cfg env cfg.secondary_shutdown_nodes s
  else (s, [])

/-- `execute_shutdown_sequence(elapsed_time)`: run the five phases in
program order, threading the state, and collect the trace of actuator
method invocations. -/
def execute_shutdown_sequence (cfg : Config) (env : ActuatorEnv) (e : ℚ)
    (s : MState) : MState × List Action :=
  let p1 := phase1 cfg e s
  let t2 := phase2 cfg e p1.1
  let p3 := phase3 cfg env e p1.1
  let t4 := phase4 cfg e p3.1
  let p5 := phase5 cfg env e p3.1
  (p5.1, p1.2 ++ (t2 ++ (p3.2 ++ (t4 ++ p5.2))))

/-- A sequence of outage polls inside one epoch: for each poll the elapsed
outage time handed to `execute_shutdown_sequence` and the outcomes the
external world gives to that poll's actuator calls.  Returns the final
state and the per-poll traces. -/
def pollSeq (cfg : Config) : List (ℚ × ActuatorEnv) → MState → MState × List (List Action)
  | [], s => (s, [])
  | p :: rest, s =>
    let r1 := execute_shutdown_sequence cfg p.2 p.1 s
    let r2 := pollSeq cfg rest r1.1
    (r2.1, r1.2 :: r2.2)

/-- One node as returned by `list_node()`: its name, its
`status.conditions` as (type, status) string pairs, and whether
`spec.unschedulable` is truthy. -/
structure ClusterNode where
  name : String
  conditions : List (String × String)
  unschedulable : Bool

/-- The readiness check of `restore_power_procedures`: some condition has
type `Ready` with status `True`. -/
def node_is_ready (nd : ClusterNode) : Bool :=
  nd.conditions.any (fun c => c.1 = "Ready" && c.2 = "True")

/-- The uncordon pass of `restore_power_procedures` over a successful
node listing: skip the critical node, uncordon every node that is ready
and currently unschedulable. -/
def restoreActs (cfg : Config) (nodes : List ClusterNode) : List Action :=
  nodes.filterMap (fun nd =>
    if nd.name = cfg.critical_node then none
    else if node_is_ready nd && nd.unschedulable then some (Action.uncordon nd.name)
    else none)

/-- `restore_power_procedures`: the uncordon pass runs inside a
`try`/`except` (a failed `list_node` listing, modelled as `none`, yields
no uncordons), after which the state is unconditionally reset. -/
def restore_power_procedures (cfg : Config) (listing : Option (List ClusterNode))
    (_ : MState) : MState × List Action :=
  (initState,
   match listing with
   | none => []
   | some nodes => restoreActs cfg nodes)

/-- One sensor observation as a Home Assistant state dict: `none` models a
transport failure (`get_power_status` returned `None`); the inner field
models the `state` key, absent keys defaulting to the empty string. -/
structure SensorData where
  state : Option String

/-- `is_power_available(sensor_data)`, parameterised by the behaviour of
Python's `float()` on lowered state strings (an external: `parse st = some
p` means `float(st)` returns `p`, `none` means it raises). -/
def is_power_available (parse : String → Option ℚ) (test_mode : String)
    (sensor_data : Option SensorData) : Bool :=
  if test_mode = "simulate_outage" then false
  else
    match sensor_data with
    | none => false
    | some d =>
      let st := pyLower (d.state.getD "")
      if st ∈ (["unavailable", "unknown", "none"] : List String) then false
      else
        match parse st with
        | none => false
        | some p => decide ((0 : ℚ) < p)

/-- Identifiers for the five phase guards of `execute_shutdown_sequence`,
named after the spec's five tier thresholds. -/
inductive PhaseId where
  | cordonPriority
  | drainPriority
  | shutdownPriority
  | cordonDrainSecondary
  | shutdownSecondary
deriving DecidableEq, Fintype

/-- The elapsed-time threshold each phase guard compares against, as a
function of the configuration: three are hard-coded literals, two come
from the configuration. -/
def phaseThreshold (cfg : Config) : PhaseId → ℚ
  | .cordonPriority => 30
  | .drainPriority => 60
  | .shutdownPriority => (cfg.shutdown_pi5_01_delay : ℚ)
  | .cordonDrainSecondary => 300
  | .shutdownSecondary => (cfg.shutdown_others_delay : ℚ)

/-- The set of phases whose elapsed-time guard is met at elapsed `e`. -/
def duePhases (cfg : Config) (e : ℚ) : Finset PhaseId :=
  Finset.univ.filter (fun p => phaseThreshold cfg p ≤ e)

/-- Every occurrence of `tgt` in `l` is preceded by an occurrence of
`req`. -/
def precededBy (tgt req : Action) (l : List Action) : Prop :=
  ∀ j : ℕ, l[j]? = some tgt → ∃ i : ℕ, i < j ∧ l[i]? = some req

/-- Every occurrence of `tgt` in `l` is preceded by an occurrence of
`req`, either earlier in `l` or anywhere in the already-emitted history
`H`. -/
def precededByCtx (tgt req : Action) (H l : List Action) : Prop :=
  ∀ j : ℕ, l[j]? = some tgt → req ∈ H ∨ ∃ i : ℕ, i < j ∧ l[i]? = some req

/-- The configuration's default values from `__init__`. -/
def cfgDefault : Config :=
  ⟨180, 420, "pi4-02", ["pi5-01"], ["pi4-01", "pi5-02"], false, false⟩

/-- An external world in which every actuator call succeeds (ssh exit 0). -/
def envAllOk : ActuatorEnv :=
  ⟨fun _ => true, fun _ => true, fun _ => true, fun _ => PowerOffOutcome.completes 0⟩

/-- An external world in which cordon patches fail and everything else
succeeds. -/
def envCordonFail : ActuatorEnv :=
  ⟨fun _ => false, fun _ => true, fun _ => true, fun _ => PowerOffOutcome.completes 0⟩

/-- An external world in which the ssh power-off command completes with
exit code 1 (remote failure) and everything else succeeds. -/
def envExit1 : ActuatorEnv :=
  ⟨fun _ => true, fun _ => true, fun _ => true, fun _ => PowerOffOutcome.completes 1⟩

/-- An external world in which every `kubectl drain` fails and everything
else succeeds. -/
def envDrainFail : ActuatorEnv :=
  ⟨fun _ => true, fun _ => true, fun _ => false, fun _ => PowerOffOutcome.completes 0⟩

/-- A configuration identical to the default except that the priority
power-off delay is set to 10 seconds, below the hard-coded 30-second
cordon guard and 60-second drain guard. -/
def cfgEarly : Config :=
  ⟨10, 420, "pi4-02", ["pi5-01"], ["pi4-01", "pi5-02"], false, false⟩

/-- A model of Python `float()` for the witness: parses exactly the
string `"5"`, to the value 5. -/
def parseW : String → Option ℚ :=
  fun st => if st = "5" then some (5 : ℚ) else none

/-! ### Ordering machinery for traces -/

theorem precededBy_nil (t r : Action) : precededBy t r [] := by
  intro j hj
  simp at hj

theorem precededBy_of_not_mem {t : Action} (r : Action) {l : List Action}
    (h : t ∉ l) : precededBy t r l := by
  intro j hj
  exact absurd (List.getElem?_mem hj) h

theorem precededByCtx_of_not_mem {t : Action} (r : Action) (H : List Action)
    {l : List Action} (h : t ∉ l) : precededByCtx t r H l := by
  intro j hj
  exact absurd (List.getElem?_mem hj) h

theorem precededByCtx_of_mem (t : Action) {r : Action} {H : List Action}
    (l : List Action) (h : r ∈ H) : precededByCtx t r H l :=
  fun _ _ => Or.inl h

theorem precededByCtx_of_precededBy {t r : Action} (H : List Action)
    {l : List Action} (h : precededBy t r l) : precededByCtx t r H l := by
  intro j hj
  exact Or.inr (h j hj)

theorem precededByCtx_mono {t r : Action} {H H' l : List Action}
    (hsub : ∀ a, a ∈ H → a ∈ H') (h : precededByCtx t r H l) :
    precededByCtx t r H' l := by
  intro j hj
  rcases h j hj with hr | hex
  · exact Or.inl (hsub _ hr)
  · exact Or.inr hex

theorem precededByCtx_append {t r : Action} {H A B : List Action}
    (h1 : precededByCtx t r H A) (h2 : precededByCtx t r (H ++ A) B) :
    precededByCtx t r H (A ++ B) := by
  intro j hj
  by_cases hlt : j < A.length
  · rw [List.getElem?_append_left hlt] at hj
    rcases h1 j hj with hr | ⟨i, hij, hi⟩
    · exact Or.inl hr
    · exact Or.inr ⟨i, hij, by rw [List.getElem?_append_left (lt_trans hij hlt)]; exact hi⟩
  · push_neg at hlt
    rw [List.getElem?_append_right hlt] at hj
    rcases h2 _ hj with hr | ⟨i, hij, hi⟩
    · rcases List.mem_append.mp hr with hrH | hrA
      · exact Or.inl hrH
      · rw [List.mem_iff_getElem?] at hrA
        obtain ⟨k, hk⟩ := hrA
        have hklen : k < A.length := (List.getElem?_eq_some_iff.mp hk).1
        refine Or.inr ⟨k, lt_of_lt_of_le hklen hlt, ?_⟩
        rw [List.getElem?_append_left hklen]
        exact hk
    · refine Or.inr ⟨A.length + i, by omega, ?_⟩
      rw [List.getElem?_append_right (Nat.le_add_right _ _)]
      simpa using hi

theorem precededBy_of_ctx_nil {t r : Action} {l : List Action}
    (h : precededByCtx t r [] l) : precededBy t r l := by
  intro j hj
  rcases h j hj with hr | hex
  · simp at hr
  · exact hex

theorem precededBy_append {t r : Action} {A B : List Action}
    (hA : precededBy t r A) (hB : precededBy t r B) : precededBy t r (A ++ B) :=
  precededBy_of_ctx_nil
    (precededByCtx_append (precededByCtx_of_precededBy [] hA)
      (precededByCtx_of_precededBy ([] ++ A) hB))

/-! ### Contents of the per-phase trace segments -/

theorem mem_cordonActs {cfg : Config} {a : Action} (h : a ∈ cordonActs cfg) :
    ∃ n, a = Action.cordon n ∧ n ≠ cfg.critical_node ∧
      n ∈ cfg.priority_shutdown_nodes.map pyStrip := by
  rcases List.mem_filterMap.mp h with ⟨n, hn, hf⟩
  by_cases hc : n = cfg.critical_node
  · rw [if_pos hc] at hf
    exact Option.noConfusion hf
  · rw [if_neg hc] at hf
    injection hf with hf
    exact ⟨n, hf.symm, hc, hn⟩

theorem cordon_mem_cordonActs {cfg : Config} {n : String}
    (hn : n ∈ cfg.priority_shutdown_nodes.map pyStrip)
    (hc : n ≠ cfg.critical_node) : Action.cordon n ∈ cordonActs cfg :=
  List.mem_filterMap.mpr ⟨n, hn, by rw [if_neg hc]⟩

theorem mem_drainActs {cfg : Config} {s : MState} {a : Action}
    (h : a ∈ drainActs cfg s) :
    ∃ n, a = Action.drain n ∧ n ≠ cfg.critical_node ∧ n ∉ s.nodes_shutdown ∧
      n ∈ cfg.priority_shutdown_nodes.map pyStrip := by
  rcases List.mem_filterMap.mp h with ⟨n, hn, hf⟩
  by_cases hc : n = cfg.critical_node ∨ n ∈ s.nodes_shutdown
  · rw [if_pos hc] at hf
    exact Option.noConfusion hf
  · rw [if_neg hc] at hf
    push_neg at hc
    injection hf with hf
    exact ⟨n, hf.symm, hc.1, hc.2, hn⟩

theorem drain_mem_drainActs {cfg : Config} {s : MState} {n : String}
    (hn : n ∈ cfg.priority_shutdown_nodes.map pyStrip)
    (hc : n ≠ cfg.critical_node) (hs : n ∉ s.nodes_shutdown) :
    Action.drain n ∈ drainActs cfg s :=
  List.mem_filterMap.mpr ⟨n, hn, by
    rw [if_neg]
    push_neg
    exact ⟨hc, hs⟩⟩

theorem mem_cdBlocks {cfg : Config} {s : MState} {a : Action}
    (h : a ∈ cdBlocks cfg s) :
    ∃ n, (a = Action.cordon n ∨ a = Action.drain n) ∧ n ≠ cfg.critical_node ∧
      n ∉ s.nodes_shutdown ∧ n ∈ cfg.secondary_shutdown_nodes.map pyStrip := by
  rcases List.mem_flatten.mp h with ⟨blk, hblk, ha⟩
  rcases List.mem_map.mp hblk with ⟨n, hn, hfn⟩
  by_cases hc : n = cfg.critical_node ∨ n ∈ s.nodes_shutdown
  · rw [if_pos hc] at hfn
    rw [← hfn] at ha
    simp at ha
  · rw [if_neg hc] at hfn
    rw [← hfn] at ha
    push_neg at hc
    simp only [List.mem_cons, List.mem_singleton, List.not_mem_nil, or_false] at ha
    exact ⟨n, ha, hc.1, hc.2, hn⟩

theorem drain_mem_cdBlocks {cfg : Config} {s : MState} {n : String}
    (hn : n ∈ cfg.secondary_shutdown_nodes.map pyStrip)
    (hc : n ≠ cfg.critical_node) (hs : n ∉ s.nodes_shutdown) :
    Action.drain n ∈ cdBlocks cfg s := by
  apply List.mem_flatten.mpr
  refine ⟨[Action.cordon n, Action.drain n], ?_, by simp⟩
  apply List.mem_map.mpr
  refine ⟨n, hn, ?_⟩
  rw [if_neg]
  push_neg
  exact ⟨hc, hs⟩

theorem cdBlocks_drain_after_cordon (cfg : Config) (s : MState) (n : String) :
    precededBy (Action.drain n) (Action.cordon n) (cdBlocks cfg s) := by
  unfold cdBlocks
  induction cfg.secondary_shutdown_nodes.map pyStrip with
  | nil => exact precededBy_nil _ _
  | cons m rest ih =>
    rw [List.map_cons, List.flatten_cons]
    refine precededBy_append ?_ ih
    by_cases hc : m = cfg.critical_node ∨ m ∈ s.nodes_shutdown
    · rw [if_pos hc]
      exact precededBy_nil _ _
    · rw [if_neg hc]
      intro j hj
      match j, hj with
      | 0, hj => simp at hj
      | 1, hj =>
        simp only [List.getElem?_cons_succ, List.getElem?_cons_zero,
          Option.some.injEq] at hj
        refine ⟨0, by omega, ?_⟩
        simp only [List.getElem?_cons_zero, Option.some.injEq]
        rw [Action.drain.injEq] at hj
        rw [hj]
      | (k+2), hj => simp at hj

/-! ### `shutdown_node` and the power-off loops -/

theorem shutdown_node_set_mono (cfg : Config) (env : ActuatorEnv) (n : String)
    (s : MState) :
    s.nodes_shutdown ⊆ (shutdown_node cfg env n s).2.nodes_shutdown := by
  unfold shutdown_node
  by_cases h : (cfg.dry_run || cfg.skip_shutdown) = true
  · rw [if_pos h]
    exact Finset.subset_insert _ _
  · rw [if_neg h]
    cases env.powerOff n
    · exact Finset.Subset.refl _
    · exact Finset.Subset.refl _
    · exact Finset.subset_insert _ _

theorem shutdown_node_initiated (cfg : Config) (env : ActuatorEnv) (n : String)
    (s : MState) :
    (shutdown_node cfg env n s).2.shutdown_initiated = s.shutdown_initiated := by
  unfold shutdown_node
  by_cases h : (cfg.dry_run || cfg.skip_shutdown) = true
  · rw [if_pos h]
  · rw [if_neg h]
    cases env.powerOff n <;> rfl

theorem shutdown_node_completes {cfg : Config} {env : ActuatorEnv} {n : String}
    {c : ℤ} (s : MState) (hdry : cfg.dry_run = false)
    (hskip : cfg.skip_shutdown = false)
    (hpo : env.powerOff n = PowerOffOutcome.completes c) :
    shutdown_node cfg env n s =
      (true, { s with nodes_shutdown := insert n s.nodes_shutdown }) := by
  unfold shutdown_node
  rw [if_neg (by rw [hdry, hskip]; simp), hpo]

theorem powerOffLoop_set_mono (cfg : Config) (env : ActuatorEnv) :
    ∀ (l : List String) (s : MState),
      s.nodes_shutdown ⊆ (powerOffLoop cfg env l s).1.nodes_shutdown := by
  intro l
  induction l with
  | nil => intro s; exact Finset.Subset.refl _
  | cons node rest ih =>
    intro s
    simp only [powerOffLoop]
    by_cases hc : pyStrip node = cfg.critical_node ∨ pyStrip node ∈ s.nodes_shutdown
    · rw [if_pos hc]
      exact ih s
    · rw [if_neg hc]
      exact Finset.Subset.trans (shutdown_node_set_mono cfg env (pyStrip node) s)
        (ih _)

theorem powerOffLoop_initiated (cfg : Config) (env : ActuatorEnv) :
    ∀ (l : List String) (s : MState),
      (powerOffLoop cfg env l s).1.shutdown_initiated = s.shutdown_initiated := by
  intro l
  induction l with
  | nil => intro s; rfl
  | cons node rest ih =>
    intro s
    simp only [powerOffLoop]
    by_cases hc : pyStrip node = cfg.critical_node ∨ pyStrip node ∈ s.nodes_shutdown
    · rw [if_pos hc]
      exact ih s
    · rw [if_neg hc]
      rw [ih, shutdown_node_initiated]

theorem mem_powerOffLoop {cfg : Config} {env : ActuatorEnv} :
    ∀ {l : List String} {s : MState} {a : Action},
      a ∈ (powerOffLoop cfg env l s).2 →
      ∃ n, a = Action.powerOff n ∧ n ≠ cfg.critical_node ∧
        n ∉ s.nodes_shutdown ∧ n ∈ l.map pyStrip := by
  intro l
  induction l with
  | nil =>
    intro s a h
    simp [powerOffLoop] at h
  | cons node rest ih =>
    intro s a h
    simp only [powerOffLoop] at h
    by_cases hc : pyStrip node = cfg.critical_node ∨ pyStrip node ∈ s.nodes_shutdown
    · rw [if_pos hc] at h
      rcases ih h with ⟨n, ha, hcrit, hs, hl⟩
      exact ⟨n, ha, hcrit, hs, by simp [hl]⟩
    · rw [if_neg hc] at h
      push_neg at hc
      rcases List.mem_cons.mp h with ha | ha
      · exact ⟨pyStrip node, ha, hc.1, hc.2, by simp⟩
      · rcases ih ha with ⟨n, han, hcrit, hs, hl⟩
        refine ⟨n, han, hcrit, ?_, by simp [hl]⟩
        intro hmem
        exact hs (shutdown_node_set_mono cfg env (pyStrip node) s hmem)

/-! ### Phase shapes -/

theorem exec_unfold (cfg : Config) (env : ActuatorEnv) (e : ℚ) (s : MState) :
    execute_shutdown_sequence cfg env e s =
      ((phase5 cfg env e (phase3 cfg env e (phase1 cfg e s).1).1).1,
       (phase1 cfg e s).2 ++
         (phase2 cfg e (phase1 cfg e s).1 ++
           ((phase3 cfg env e (phase1 cfg e s).1).2 ++
             (phase4 cfg e (phase3 cfg env e (phase1 cfg e s).1).1 ++
               (phase5 cfg env e (phase3 cfg env e (phase1 cfg e s).1).1).2)))) :=
  rfl

theorem phase1_set (cfg : Config) (e : ℚ) (s : MState) :
    (phase1 cfg e s).1.nodes_shutdown = s.nodes_shutdown := by
  unfold phase1
  split <;> rfl

theorem phase1_trace_cases (cfg : Config) (e : ℚ) (s : MState) :
    (phase1 cfg e s).2 = cordonActs cfg ∨ (phase1 cfg e s).2 = [] := by
  unfold phase1
  split
  · exact Or.inl rfl
  · exact Or.inr rfl

theorem phase1_initiated_true {cfg : Config} {e : ℚ} {s : MState}
    (h : (phase1 cfg e s).1.shutdown_initiated = true) :
    s.shutdown_initiated = true ∨
      ((30 : ℚ) ≤ e ∧ s.shutdown_initiated = false) := by
  by_cases hc : (30 : ℚ) ≤ e ∧ s.shutdown_initiated = false
  · exact Or.inr hc
  · left
    unfold phase1 at h
    rw [if_neg hc] at h
    exact h

theorem phase1_fired {cfg : Config} {e : ℚ} {s : MState}
    (hinit : s.shutdown_initiated = false) (he : (30 : ℚ) ≤ e) :
    phase1 cfg e s =
      ({ s with shutdown_initiated := true }, cordonActs cfg) := by
  unfold phase1
  rw [if_pos ⟨he, hinit⟩]

theorem phase1_skipped {cfg : Config} {e : ℚ} {s : MState}
    (hinit : s.shutdown_initiated = true) : phase1 cfg e s = (s, []) := by
  unfold phase1
  rw [if_neg]
  simp [hinit]

theorem phase2_due {cfg : Config} {e : ℚ} (s : MState) (he : (60 : ℚ) ≤ e) :
    phase2 cfg e s = drainActs cfg s := by
  unfold phase2
  rw [if_pos he]

theorem phase2_trace_cases (cfg : Config) (e : ℚ) (s : MState) :
    phase2 cfg e s = drainActs cfg s ∨ phase2 cfg e s = [] := by
  unfold phase2
  split
  · exact Or.inl rfl
  · exact Or.inr rfl

theorem phase3_cases (cfg : Config) (env : ActuatorEnv) (e : ℚ) (s : MState) :
    (phase3 cfg env e s = powerOffLoop cfg env cfg.priority_shutdown_nodes s ∧
       (cfg.shutdown_pi5_01_delay : ℚ) ≤ e) ∨
      phase3 cfg env e s = (s, []) := by
  unfold phase3
  split
  · next h => exact Or.inl ⟨rfl, h⟩
  · exact Or.inr rfl

theorem phase4_due {cfg : Config} {e : ℚ} (s : MState) (he : (300 : ℚ) ≤ e) :
    phase4 cfg e s = cdBlocks cfg s := by
  unfold phase4
  rw [if_pos he]

theorem phase4_trace_cases (cfg : Config) (e : ℚ) (s : MState) :
    phase4 cfg e s = cdBlocks cfg s ∨ phase4 cfg e s = [] := by
  unfold phase4
  split
  · exact Or.inl rfl
  · exact Or.inr rfl

theorem phase5_cases (cfg : Config) (env : ActuatorEnv) (e : ℚ) (s : MState) :
    (phase5 cfg env e s = powerOffLoop cfg env cfg.secondary_shutdown_nodes s ∧
       (cfg.shutdown_others_delay : ℚ) ≤ e) ∨
      phase5 cfg env e s = (s, []) := by
  unfold phase5
  split
  · next h => exact Or.inl ⟨rfl, h⟩
  · exact Or.inr rfl

theorem phase3_set_mono (cfg : Config) (env : ActuatorEnv) (e : ℚ) (s : MState) :
    s.nodes_shutdown ⊆ (phase3 cfg env e s).1.nodes_shutdown := by
  rcases phase3_cases cfg env e s with ⟨h, _⟩ | h
  · rw [h]
    exact powerOffLoop_set_mono cfg env _ s
  · rw [h]

theorem phase5_set_mono (cfg : Config) (env : ActuatorEnv) (e : ℚ) (s : MState) :
    s.nodes_shutdown ⊆ (phase5 cfg env e s).1.nodes_shutdown := by
  rcases phase5_cases cfg env e s with ⟨h, _⟩ | h
  · rw [h]
    exact powerOffLoop_set_mono cfg env _ s
  · rw [h]

theorem phase3_initiated (cfg : Config) (env : ActuatorEnv) (e : ℚ) (s : MState) :
    (phase3 cfg env e s).1.shutdown_initiated = s.shutdown_initiated := by
  rcases phase3_cases cfg env e s with ⟨h, _⟩ | h
  · rw [h]
    exact powerOffLoop_initiated cfg env _ s
  · rw [h]

theorem phase5_initiated (cfg : Config) (env : ActuatorEnv) (e : ℚ) (s : MState) :
    (phase5 cfg env e s).1.shutdown_initiated = s.shutdown_initiated := by
  rcases phase5_cases cfg env e s with ⟨h, _⟩ | h
  · rw [h]
    exact powerOffLoop_initiated cfg env _ s
  · rw [h]

/-! ### State evolution across one `execute_shutdown_sequence` call -/

theorem exec_set_mono (cfg : Config) (env : ActuatorEnv) (e : ℚ) (s : MState) :
    s.nodes_shutdown ⊆
      (execute_shutdown_sequence cfg env e s).1.nodes_shutdown := by
  rw [exec_unfold]
  refine Finset.Subset.trans ?_ (phase5_set_mono cfg env e _)
  refine Finset.Subset.trans ?_ (phase3_set_mono cfg env e _)
  rw [phase1_set]

theorem exec_initiated (cfg : Config) (env : ActuatorEnv) (e : ℚ) (s : MState) :
    (execute_shutdown_sequence cfg env e s).1.shutdown_initiated =
      (phase1 cfg e s).1.shutdown_initiated := by
  rw [exec_unfold]
  rw [phase5_initiated, phase3_initiated]

/-! ### No actuator call ever targets the critical node -/

theorem cordonActs_no_critical {cfg : Config} {a : Action}
    (h : a ∈ cordonActs cfg) : actionNode a ≠ cfg.critical_node := by
  rcases mem_cordonActs h with ⟨n, ha, hc, _⟩
  rw [ha]
  exact hc

theorem drainActs_no_critical {cfg : Config} {s : MState} {a : Action}
    (h : a ∈ drainActs cfg s) : actionNode a ≠ cfg.critical_node := by
  rcases mem_drainActs h with ⟨n, ha, hc, _, _⟩
  rw [ha]
  exact hc

theorem cdBlocks_no_critical {cfg : Config} {s : MState} {a : Action}
    (h : a ∈ cdBlocks cfg s) : actionNode a ≠ cfg.critical_node := by
  rcases mem_cdBlocks h with ⟨n, ha, hc, _, _⟩
  rcases ha with ha | ha <;> rw [ha] <;> exact hc

theorem powerOffLoop_no_critical {cfg : Config} {env : ActuatorEnv}
    {l : List String} {s : MState} {a : Action}
    (h : a ∈ (powerOffLoop cfg env l s).2) :
    actionNode a ≠ cfg.critical_node := by
  rcases mem_powerOffLoop h with ⟨n, ha, hc, _, _⟩
  rw [ha]
  exact hc

theorem exec_no_critical {cfg : Config} {env : ActuatorEnv} {e : ℚ} {s : MState}
    {a : Action} (h : a ∈ (execute_shutdown_sequence cfg env e s).2) :
    actionNode a ≠ cfg.critical_node := by
  rw [exec_unfold] at h
  simp only [List.mem_append] at h
  rcases h with h | h | h | h | h
  · rcases phase1_trace_cases cfg e s with hc | hc <;> rw [hc] at h
    · exact cordonActs_no_critical h
    · simp at h
  · rcases phase2_trace_cases cfg e (phase1 cfg e s).1 with hc | hc <;> rw [hc] at h
    · exact drainActs_no_critical h
    · simp at h
  · rcases phase3_cases cfg env e (phase1 cfg e s).1 with ⟨hc, _⟩ | hc <;>
      rw [hc] at h
    · exact powerOffLoop_no_critical h
    · simp at h
  · rcases phase4_trace_cases cfg e (phase3 cfg env e (phase1 cfg e s).1).1 with
      hc | hc <;> rw [hc] at h
    · exact cdBlocks_no_critical h
    · simp at h
  · rcases phase5_cases cfg env e (phase3 cfg env e (phase1 cfg e s).1).1 with
      ⟨hc, _⟩ | hc <;> rw [hc] at h
    · exact powerOffLoop_no_critical h
    · simp at h

theorem pollSeq_no_critical {cfg : Config} :
    ∀ {polls : List (ℚ × ActuatorEnv)} {s : MState} {a : Action},
      a ∈ (pollSeq cfg polls s).2.flatten → actionNode a ≠ cfg.critical_node := by
  intro polls
  induction polls with
  | nil =>
    intro s a h
    simp [pollSeq] at h
  | cons p rest ih =>
    intro s a h
    simp only [pollSeq, List.flatten_cons, List.mem_append] at h
    rcases h with h | h
    · exact exec_no_critical h
    · exact ih h

/-! ### A node recorded shut down is never powered off again -/

theorem powerOffLoop_no_repeat {cfg : Config} {env : ActuatorEnv} {n : String}
    {l : List String} {s : MState} (hs : n ∈ s.nodes_shutdown) :
    Action.powerOff n ∉ (powerOffLoop cfg env l s).2 := by
  intro h
  rcases mem_powerOffLoop h with ⟨m, hm, _, hnot, _⟩
  injection hm with hm
  rw [← hm] at hnot
  exact hnot hs

theorem exec_no_repeat {cfg : Config} {env : ActuatorEnv} {e : ℚ} {s : MState}
    {n : String} (hs : n ∈ s.nodes_shutdown) :
    Action.powerOff n ∉ (execute_shutdown_sequence cfg env e s).2 := by
  rw [exec_unfold]
  simp only [List.mem_append]
  push_neg
  refine ⟨?_, ?_, ?_, ?_, ?_⟩
  · intro h
    rcases phase1_trace_cases cfg e s with hc | hc <;> rw [hc] at h
    · rcases mem_cordonActs h with ⟨m, hm, _, _⟩
      exact Action.noConfusion hm
    · simp at h
  · intro h
    rcases phase2_trace_cases cfg e (phase1 cfg e s).1 with hc | hc <;> rw [hc] at h
    · rcases mem_drainActs h with ⟨m, hm, _, _, _⟩
      exact Action.noConfusion hm
    · simp at h
  · intro h
    rcases phase3_cases cfg env e (phase1 cfg e s).1 with ⟨hc, _⟩ | hc <;>
      rw [hc] at h
    · have hset : n ∈ (phase1 cfg e s).1.nodes_shutdown := by
        rw [phase1_set]
        exact hs
      exact powerOffLoop_no_repeat hset h
    · simp at h
  · intro h
    rcases phase4_trace_cases cfg e (phase3 cfg env e (phase1 cfg e s).1).1 with
      hc | hc <;> rw [hc] at h
    · rcases mem_cdBlocks h with ⟨m, hm, _, _, _⟩
      rcases hm with hm | hm <;> exact Action.noConfusion hm
    · simp at h
  · intro h
    rcases phase5_cases cfg env e (phase3 cfg env e (phase1 cfg e s).1).1 with
      ⟨hc, _⟩ | hc <;> rw [hc] at h
    · have hset : n ∈ (phase3 cfg env e (phase1 cfg e s).1).1.nodes_shutdown := by
        apply phase3_set_mono
        rw [phase1_set]
        exact hs
      exact powerOffLoop_no_repeat hset h
    · simp at h

theorem pollSeq_set_mono (cfg : Config) :
    ∀ (polls : List (ℚ × ActuatorEnv)) (s : MState),
      s.nodes_shutdown ⊆ (pollSeq cfg polls s).1.nodes_shutdown := by
  intro polls
  induction polls with
  | nil => intro s; exact Finset.Subset.refl _
  | cons p rest ih =>
    intro s
    simp only [pollSeq]
    exact Finset.Subset.trans (exec_set_mono cfg p.2 p.1 s) (ih _)

theorem pollSeq_no_repeat {cfg : Config} {n : String} :
    ∀ {polls : List (ℚ × ActuatorEnv)} {s : MState}, n ∈ s.nodes_shutdown →
      Action.powerOff n ∉ (pollSeq cfg polls s).2.flatten := by
  intro polls
  induction polls with
  | nil =>
    intro s _ h
    simp [pollSeq] at h
  | cons p rest ih =>
    intro s hs h
    simp only [pollSeq, List.flatten_cons, List.mem_append] at h
    rcases h with h | h
    · exact exec_no_repeat hs h
    · exact ih (exec_set_mono cfg p.2 p.1 s hs) h

/-! ### Recovery-pass lemmas -/

theorem mem_restoreActs {cfg : Config} {nodes : List ClusterNode} {a : Action}
    (h : a ∈ restoreActs cfg nodes) :
    ∃ nd, nd ∈ nodes ∧ a = Action.uncordon nd.name ∧
      nd.name ≠ cfg.critical_node ∧ node_is_ready nd = true ∧
      nd.unschedulable = true := by
  rcases List.mem_filterMap.mp h with ⟨nd, hnd, hf⟩
  by_cases h1 : nd.name = cfg.critical_node
  · rw [if_pos h1] at hf
    exact Option.noConfusion hf
  · rw [if_neg h1] at hf
    by_cases h2 : (node_is_ready nd && nd.unschedulable) = true
    · rw [if_pos h2] at hf
      injection hf with hf
      have h2' : node_is_ready nd = true ∧ nd.unschedulable = true := by
        simpa using h2
      exact ⟨nd, hnd, hf.symm, h1, h2'.1, h2'.2⟩
    · rw [if_neg h2] at hf
      exact Option.noConfusion hf

theorem uncordon_mem_restoreActs {cfg : Config} {nodes : List ClusterNode}
    {nd : ClusterNode} (hnd : nd ∈ nodes) (h1 : nd.name ≠ cfg.critical_node)
    (hr : node_is_ready nd = true) (hu : nd.unschedulable = true) :
    Action.uncordon nd.name ∈ restoreActs cfg nodes :=
  List.mem_filterMap.mpr
    ⟨nd, hnd, by rw [if_neg h1, if_pos (by simp [hr, hu])]⟩

theorem restoreActs_no_critical {cfg : Config} {nodes : List ClusterNode}
    {a : Action} (h : a ∈ restoreActs cfg nodes) :
    actionNode a ≠ cfg.critical_node := by
  rcases mem_restoreActs h with ⟨nd, _, ha, hc, _, _⟩
  rw [ha]
  exact hc

theorem restoreActs_count_le_one (cfg : Config) (n : String) :
    ∀ nodes : List ClusterNode, (nodes.map ClusterNode.name).Nodup →
      (restoreActs cfg nodes).count (Action.uncordon n) ≤ 1 := by
  intro nodes
  induction nodes with
  | nil =>
    intro _
    simp [restoreActs]
  | cons nd rest ih =>
    intro hnodup
    rw [List.map_cons, List.nodup_cons] at hnodup
    obtain ⟨hnotin, hrest⟩ := hnodup
    have hnomem : n = nd.name → Action.uncordon n ∉ restoreActs cfg rest := by
      intro hn hmem
      rcases mem_restoreActs hmem with ⟨nd2, hnd2, ha, _, _, _⟩
      injection ha with ha
      apply hnotin
      have hname : nd.name = nd2.name := by rw [← hn, ha]
      rw [hname]
      exact List.mem_map.mpr ⟨nd2, hnd2, rfl⟩
    simp only [restoreActs, List.filterMap_cons] at *
    by_cases h1 : nd.name = cfg.critical_node
    · rw [if_pos h1]
      exact ih hrest
    · rw [if_neg h1]
      by_cases h2 : (node_is_ready nd && nd.unschedulable) = true
      · rw [if_pos h2, List.count_cons]
        by_cases hn : n = nd.name
        · have hz := List.count_eq_zero.mpr (hnomem hn)
          rw [hz]
          split <;> simp
        · have hbeq : (Action.uncordon nd.name == Action.uncordon n) = false := by
            simp only [beq_eq_false_iff_ne, ne_eq, Action.uncordon.injEq]
            exact fun hcon => hn hcon.symm
          rw [hbeq]
          simpa using ih hrest
      · rw [if_neg h2]
        exact ih hrest

/-! ### Helper shape lemmas: which constructors appear in which segment -/

theorem powerOff_not_mem_phase1 (cfg : Config) (e : ℚ) (s : MState) (n : String) :
    Action.powerOff n ∉ (phase1 cfg e s).2 := by
  intro h
  rcases phase1_trace_cases cfg e s with hc | hc <;> rw [hc] at h
  · rcases mem_cordonActs h with ⟨m, hm, _, _⟩
    exact Action.noConfusion hm
  · simp at h

theorem powerOff_not_mem_phase2 (cfg : Config) (e : ℚ) (s : MState) (n : String) :
    Action.powerOff n ∉ phase2 cfg e s := by
  intro h
  rcases phase2_trace_cases cfg e s with hc | hc <;> rw [hc] at h
  · rcases mem_drainActs h with ⟨m, hm, _, _, _⟩
    exact Action.noConfusion hm
  · simp at h

theorem powerOff_not_mem_phase4 (cfg : Config) (e : ℚ) (s : MState) (n : String) :
    Action.powerOff n ∉ phase4 cfg e s := by
  intro h
  rcases phase4_trace_cases cfg e s with hc | hc <;> rw [hc] at h
  · rcases mem_cdBlocks h with ⟨m, hm, _, _, _⟩
    rcases hm with hm | hm <;> exact Action.noConfusion hm
  · simp at h

theorem drain_not_mem_phase1 (cfg : Config) (e : ℚ) (s : MState) (n : String) :
    Action.drain n ∉ (phase1 cfg e s).2 := by
  intro h
  rcases phase1_trace_cases cfg e s with hc | hc <;> rw [hc] at h
  · rcases mem_cordonActs h with ⟨m, hm, _, _⟩
    exact Action.noConfusion hm
  · simp at h

theorem drain_not_mem_phase3 (cfg : Config) (env : ActuatorEnv) (e : ℚ)
    (s : MState) (n : String) : Action.drain n ∉ (phase3 cfg env e s).2 := by
  intro h
  rcases phase3_cases cfg env e s with ⟨hc, _⟩ | hc <;> rw [hc] at h
  · rcases mem_powerOffLoop h with ⟨m, hm, _, _, _⟩
    exact Action.noConfusion hm
  · simp at h

theorem drain_not_mem_phase5 (cfg : Config) (env : ActuatorEnv) (e : ℚ)
    (s : MState) (n : String) : Action.drain n ∉ (phase5 cfg env e s).2 := by
  intro h
  rcases phase5_cases cfg env e s with ⟨hc, _⟩ | hc <;> rw [hc] at h
  · rcases mem_powerOffLoop h with ⟨m, hm, _, _, _⟩
    exact Action.noConfusion hm
  · simp at h

theorem phase2_mem_due {cfg : Config} {e : ℚ} {s : MState} {a : Action}
    (h : a ∈ phase2 cfg e s) : (60 : ℚ) ≤ e ∧ a ∈ drainActs cfg s := by
  unfold phase2 at h
  split at h
  · next h60 => exact ⟨h60, h⟩
  · simp at h

/-! ### Stage ordering within and across polls -/

theorem exec_trace (cfg : Config) (env : ActuatorEnv) (e : ℚ) (s : MState) :
    (execute_shutdown_sequence cfg env e s).2 =
      (phase1 cfg e s).2 ++
        (phase2 cfg e (phase1 cfg e s).1 ++
          ((phase3 cfg env e (phase1 cfg e s).1).2 ++
            (phase4 cfg e (phase3 cfg env e (phase1 cfg e s).1).1 ++
              (phase5 cfg env e (phase3 cfg env e (phase1 cfg e s).1).1).2))) :=
  rfl

/-- Every non-critical stripped priority node has already been cordoned in
the history `H` — the fact the `shutdown_initiated` latch witnesses. -/
def cordonedAll (cfg : Config) (H : List Action) : Prop :=
  ∀ n ∈ cfg.priority_shutdown_nodes.map pyStrip,
    n ≠ cfg.critical_node → Action.cordon n ∈ H

theorem exec_po_after_drain (cfg : Config) (env : ActuatorEnv) (e : ℚ)
    (s : MState) (h3 : (60 : ℤ) ≤ cfg.shutdown_pi5_01_delay)
    (h5 : (300 : ℤ) ≤ cfg.shutdown_others_delay) (n : String) :
    precededBy (Action.powerOff n) (Action.drain n)
      (execute_shutdown_sequence cfg env e s).2 := by
  rw [exec_trace]
  apply precededBy_of_ctx_nil
  refine precededByCtx_append ?_ ?_
  · exact precededByCtx_of_not_mem _ _ (powerOff_not_mem_phase1 cfg e s n)
  refine precededByCtx_append ?_ ?_
  · exact precededByCtx_of_not_mem _ _ (powerOff_not_mem_phase2 cfg e _ n)
  refine precededByCtx_append ?_ ?_
  · by_cases hpo :
      Action.powerOff n ∈ (phase3 cfg env e (phase1 cfg e s).1).2
    · apply precededByCtx_of_mem
      apply List.mem_append.mpr
      right
      rcases phase3_cases cfg env e (phase1 cfg e s).1 with ⟨heq, hguard⟩ | heq
      · rw [heq] at hpo
        rcases mem_powerOffLoop hpo with ⟨m, hm, hcrit, hset, hl⟩
        injection hm with hm
        subst hm
        have h60 : (60 : ℚ) ≤ e := by
          have hcast : ((60 : ℤ) : ℚ) ≤ (cfg.shutdown_pi5_01_delay : ℚ) := by
            exact_mod_cast h3
          have : ((60 : ℤ) : ℚ) = (60 : ℚ) := by norm_num
          rw [this] at hcast
          exact le_trans hcast hguard
        rw [phase2_due _ h60]
        exact drain_mem_drainActs hl hcrit hset
      · rw [heq] at hpo
        simp at hpo
    · exact precededByCtx_of_not_mem _ _ hpo
  refine precededByCtx_append ?_ ?_
  · exact precededByCtx_of_not_mem _ _ (powerOff_not_mem_phase4 cfg e _ n)
  · by_cases hpo :
      Action.powerOff n ∈
        (phase5 cfg env e (phase3 cfg env e (phase1 cfg e s).1).1).2
    · apply precededByCtx_of_mem
      apply List.mem_append.mpr
      right
      rcases phase5_cases cfg env e (phase3 cfg env e (phase1 cfg e s).1).1 with
        ⟨heq, hguard⟩ | heq
      · rw [heq] at hpo
        rcases mem_powerOffLoop hpo with ⟨m, hm, hcrit, hset, hl⟩
        injection hm with hm
        subst hm
        have h300 : (300 : ℚ) ≤ e := by
          have hcast : ((300 : ℤ) : ℚ) ≤ (cfg.shutdown_others_delay : ℚ) := by
            exact_mod_cast h5
          have : ((300 : ℤ) : ℚ) = (300 : ℚ) := by norm_num
          rw [this] at hcast
          exact le_trans hcast hguard
        rw [phase4_due _ h300]
        exact drain_mem_cdBlocks hl hcrit hset
      · rw [heq] at hpo
        simp at hpo
    · exact precededByCtx_of_not_mem _ _ hpo

theorem exec_drain_after_cordon_ctx {cfg : Config} {env : ActuatorEnv} {e : ℚ}
    {s : MState} {H : List Action} (n : String)
    (hinv : s.shutdown_initiated = true → cordonedAll cfg H) :
    precededByCtx (Action.drain n) (Action.cordon n) H
      (execute_shutdown_sequence cfg env e s).2 := by
  rw [exec_trace]
  refine precededByCtx_append ?_ ?_
  · exact precededByCtx_of_not_mem _ _ (drain_not_mem_phase1 cfg e s n)
  refine precededByCtx_append ?_ ?_
  · by_cases hdr : Action.drain n ∈ phase2 cfg e (phase1 cfg e s).1
    · apply precededByCtx_of_mem
      obtain ⟨h60, hmem⟩ := phase2_mem_due hdr
      rcases mem_drainActs hmem with ⟨m, hm, hcrit, _, hl⟩
      injection hm with hm
      subst hm
      cases hinit : s.shutdown_initiated with
      | true =>
        exact List.mem_append.mpr (Or.inl (hinv hinit _ hl hcrit))
      | false =>
        apply List.mem_append.mpr
        right
        rw [phase1_fired hinit (by linarith)]
        exact cordon_mem_cordonActs hl hcrit
    · exact precededByCtx_of_not_mem _ _ hdr
  refine precededByCtx_append ?_ ?_
  · exact precededByCtx_of_not_mem _ _ (drain_not_mem_phase3 cfg env e _ n)
  refine precededByCtx_append ?_ ?_
  · apply precededByCtx_of_precededBy
    rcases phase4_trace_cases cfg e (phase3 cfg env e (phase1 cfg e s).1).1 with
      hc | hc <;> rw [hc]
    · exact cdBlocks_drain_after_cordon cfg _ n
    · exact precededBy_nil _ _
  · exact precededByCtx_of_not_mem _ _ (drain_not_mem_phase5 cfg env e _ n)

theorem exec_preserves_cordonedAll {cfg : Config} {env : ActuatorEnv} {e : ℚ}
    {s : MState} {H : List Action}
    (hinv : s.shutdown_initiated = true → cordonedAll cfg H)
    (hinit' : (execute_shutdown_sequence cfg env e s).1.shutdown_initiated = true) :
    cordonedAll cfg (H ++ (execute_shutdown_sequence cfg env e s).2) := by
  rw [exec_initiated] at hinit'
  rcases phase1_initiated_true hinit' with htrue | ⟨he, hfalse⟩
  · intro m hm hcrit
    exact List.mem_append.mpr (Or.inl (hinv htrue m hm hcrit))
  · intro m hm hcrit
    apply List.mem_append.mpr
    right
    rw [exec_trace]
    apply List.mem_append.mpr
    left
    rw [phase1_fired hfalse he]
    exact cordon_mem_cordonActs hm hcrit

theorem pollSeq_po_after_drain {cfg : Config}
    (h3 : (60 : ℤ) ≤ cfg.shutdown_pi5_01_delay)
    (h5 : (300 : ℤ) ≤ cfg.shutdown_others_delay) (n : String) :
    ∀ (polls : List (ℚ × ActuatorEnv)) (s : MState),
      precededBy (Action.powerOff n) (Action.drain n)
        ((pollSeq cfg polls s).2.flatten) := by
  intro polls
  induction polls with
  | nil =>
    intro s
    simp only [pollSeq, List.flatten_nil]
    exact precededBy_nil _ _
  | cons p rest ih =>
    intro s
    simp only [pollSeq, List.flatten_cons]
    exact precededBy_append (exec_po_after_drain cfg p.2 p.1 s h3 h5 n) (ih _)

theorem pollSeq_drain_after_cordon_ctx {cfg : Config} (n : String) :
    ∀ (polls : List (ℚ × ActuatorEnv)) (s : MState) (H : List Action),
      (s.shutdown_initiated = true → cordonedAll cfg H) →
      precededByCtx (Action.drain n) (Action.cordon n) H
        ((pollSeq cfg polls s).2.flatten) := by
  intro polls
  induction polls with
  | nil =>
    intro s H _
    simp only [pollSeq, List.flatten_nil]
    exact precededByCtx_of_not_mem _ _ (List.not_mem_nil _)
  | cons p rest ih =>
    intro s H hinv
    simp only [pollSeq, List.flatten_cons]
    refine precededByCtx_append (exec_drain_after_cordon_ctx n hinv) ?_
    apply ih
    intro hinit'
    exact exec_preserves_cordonedAll hinv hinit'

theorem pollSeq_drain_after_cordon {cfg : Config} (n : String)
    (polls : List (ℚ × ActuatorEnv)) :
    precededBy (Action.drain n) (Action.cordon n)
      ((pollSeq cfg polls initState).2.flatten) := by
  apply precededBy_of_ctx_nil
  apply pollSeq_drain_after_cordon_ctx n polls initState []
  intro h
  simp [initState] at h

/-! ### Claim theorems -/

/-- Claim C1 (code bug evidence): the shutdown sequence is level-triggered
for drain — with the default configuration and every actuator call
succeeding (`drain_node` returns success, no dry run), a poll at elapsed
60 cordons and drains the priority node, and the next poll at elapsed 75
invokes drain on the same node again within the same epoch. -/
theorem C1_drain_reinvoked_after_success :
    drain_node cfgDefault envAllOk "pi5-01" = true ∧
    cfgDefault.dry_run = false ∧
    (pollSeq cfgDefault [((60 : ℚ), envAllOk), ((75 : ℚ), envAllOk)] initState).2 =
      [[Action.cordon "pi5-01", Action.drain "pi5-01"], [Action.drain "pi5-01"]] := by
  refine ⟨rfl, rfl, by decide⟩

/-- Claim C2 (code bug evidence): a failed priority cordon is never
retried — the `shutdown_initiated` latch is set before the attempt
regardless of its outcome, so after the cordon call fails at elapsed 35
(`cordon_node` returns failure), the poll at elapsed 50 (guard `30 ≤ 50`
still met, node still schedulable) issues no cordon at all. -/
theorem C2_failed_cordon_never_retried :
    cordon_node cfgDefault envCordonFail "pi5-01" = false ∧
    (30 : ℚ) ≤ 50 ∧
    (pollSeq cfgDefault [((35 : ℚ), envCordonFail), ((50 : ℚ), envCordonFail)]
        initState).2 =
      [[Action.cordon "pi5-01"], []] := by
  refine ⟨rfl, by norm_num, by decide⟩

/-- Claim C3: no actuator method is ever invoked on the configured
critical node — neither by any sequence of shutdown polls (any elapsed
times, any actuator outcomes, any starting state) nor by the recovery
procedure. -/
theorem C3_critical_never_actuated (cfg : Config) :
    (∀ (polls : List (ℚ × ActuatorEnv)) (s : MState) (a : Action),
        a ∈ (pollSeq cfg polls s).2.flatten →
        actionNode a ≠ cfg.critical_node) ∧
    (∀ (listing : Option (List ClusterNode)) (s : MState) (a : Action),
        a ∈ (restore_power_procedures cfg listing s).2 →
        actionNode a ≠ cfg.critical_node) := by
  constructor
  · intro polls s a h
    exact pollSeq_no_critical h
  · intro listing s a h
    cases listing with
    | none => simp [restore_power_procedures] at h
    | some nodes =>
      have h' : a ∈ restoreActs cfg nodes := h
      exact restoreActs_no_critical h'

/-- Witness for C3 at a concrete input: the default configuration's poll
at elapsed 60 does cordon the priority node, and that action does not
target the critical node. -/
theorem C3_witness :
    Action.cordon "pi5-01" ∈
      (pollSeq cfgDefault [((60 : ℚ), envAllOk)] initState).2.flatten ∧
    actionNode (Action.cordon "pi5-01") ≠ cfgDefault.critical_node := by
  refine ⟨by decide, ?_⟩
  exact (C3_critical_never_actuated cfgDefault).1 [((60 : ℚ), envAllOk)] initState
    (Action.cordon "pi5-01") (by decide)

/-- Claim C4 counterexample, refuting both halves of the claim as stated.
First: with the configured priority power-off delay set to 10 (an
arbitrary ordering the engine must tolerate), a single poll at elapsed 15
invokes power-off on the priority node although no drain and no cordon was
ever invoked on it in the epoch — the stage is skipped outright.  Second:
even with the default, well-ordered delays, the node has not "previously
been drained" in the claim's successful-transition sense when power-off
fires — with every `kubectl drain` call failing (`drain_node` returns
failure, no dry run), the single poll at elapsed 180 still invokes
power-off on the node, because phase 3 consults only `nodes_shutdown` and
never drain (or cordon) success. -/
theorem C4_counterexample :
    ((pollSeq cfgEarly [((15 : ℚ), envAllOk)] initState).2.flatten =
        [Action.powerOff "pi5-01"] ∧
      Action.drain "pi5-01" ∉
        (pollSeq cfgEarly [((15 : ℚ), envAllOk)] initState).2.flatten ∧
      Action.cordon "pi5-01" ∉
        (pollSeq cfgEarly [((15 : ℚ), envAllOk)] initState).2.flatten) ∧
    (drain_node cfgDefault envDrainFail "pi5-01" = false ∧
      cfgDefault.dry_run = false ∧
      (pollSeq cfgDefault [((180 : ℚ), envDrainFail)] initState).2.flatten =
        [Action.cordon "pi5-01", Action.drain "pi5-01",
          Action.powerOff "pi5-01"]) := by
  decide

/-- Claim C4 (amended): provided the two configurable delays respect the
hard-coded guard ordering (priority power-off delay at least 60, secondary
power-off delay at least 300), then over every poll sequence of one epoch
started from the initial state, every power-off invocation of a node is
preceded in the combined trace by a drain invocation of that node, and
every drain invocation by a cordon invocation.  Invocation is all the code
guarantees: it never checks drain or cordon success before powering off,
so a node whose every drain attempt failed is still powered off (second
half of the counterexample), and under arbitrary orderings of the
thresholds even this invocation-level property fails (first half of the
counterexample). -/
theorem C4_stage_order (cfg : Config) (polls : List (ℚ × ActuatorEnv))
    (n : String) (h3 : (60 : ℤ) ≤ cfg.shutdown_pi5_01_delay)
    (h5 : (300 : ℤ) ≤ cfg.shutdown_others_delay) :
    precededBy (Action.powerOff n) (Action.drain n)
      ((pollSeq cfg polls initState).2.flatten) ∧
    precededBy (Action.drain n) (Action.cordon n)
      ((pollSeq cfg polls initState).2.flatten) :=
  ⟨pollSeq_po_after_drain h3 h5 n polls initState,
   pollSeq_drain_after_cordon n polls⟩

/-- Witness for C4 at a concrete input: the default delays satisfy the
ordering hypotheses, and in a one-poll epoch at elapsed 200 every
power-off of the priority node is preceded by its drain. -/
theorem C4_witness :
    (60 : ℤ) ≤ cfgDefault.shutdown_pi5_01_delay ∧
    (300 : ℤ) ≤ cfgDefault.shutdown_others_delay ∧
    precededBy (Action.powerOff "pi5-01") (Action.drain "pi5-01")
      ((pollSeq cfgDefault [((200 : ℚ), envAllOk)] initState).2.flatten) :=
  ⟨by decide, by decide,
   (C4_stage_order cfgDefault [((200 : ℚ), envAllOk)] "pi5-01" (by decide)
      (by decide)).1⟩

/-- Claim C5: the availability rule of `is_power_available` — the
simulate-outage test mode forces unavailable; a transport failure yields
unavailable; the lowered states `unavailable`/`unknown`/`none` yield
unavailable; a state `float()` cannot parse yields unavailable; and
otherwise power is available exactly when the parsed reading is strictly
positive. -/
theorem C5_availability_rule (parse : String → Option ℚ) (tm : String)
    (sd : Option SensorData) :
    (is_power_available parse "simulate_outage" sd = false) ∧
    (is_power_available parse tm none = false) ∧
    (∀ (d : SensorData) (st : String), sd = some d → d.state = some st →
        pyLower st ∈ (["unavailable", "unknown", "none"] : List String) →
        is_power_available parse tm sd = false) ∧
    (∀ (d : SensorData) (st : String), sd = some d → d.state = some st →
        parse (pyLower st) = none → is_power_available parse tm sd = false) ∧
    (∀ (d : SensorData) (st : String) (p : ℚ), tm ≠ "simulate_outage" →
        sd = some d → d.state = some st →
        pyLower st ∉ (["unavailable", "unknown", "none"] : List String) →
        parse (pyLower st) = some p →
        (is_power_available parse tm sd = true ↔ 0 < p)) := by
  refine ⟨?_, ?_, ?_, ?_, ?_⟩
  · unfold is_power_available
    rw [if_pos rfl]
  · unfold is_power_available
    by_cases h : tm = "simulate_outage"
    · rw [if_pos h]
    · rw [if_neg h]
  · intro d st hsd hst hspec
    subst hsd
    unfold is_power_available
    by_cases h : tm = "simulate_outage"
    · rw [if_pos h]
    · rw [if_neg h]
      simp only [hst, Option.getD_some]
      rw [if_pos hspec]
  · intro d st hsd hst hparse
    subst hsd
    unfold is_power_available
    by_cases h : tm = "simulate_outage"
    · rw [if_pos h]
    · rw [if_neg h]
      simp only [hst, Option.getD_some]
      by_cases hspec : pyLower st ∈ (["unavailable", "unknown", "none"] : List String)
      · rw [if_pos hspec]
      · rw [if_neg hspec, hparse]
  · intro d st p htm hsd hst hspec hparse
    subst hsd
    unfold is_power_available
    rw [if_neg htm]
    simp only [hst, Option.getD_some]
    rw [if_neg hspec, hparse]
    exact decide_eq_true_iff

/-- Witness for C5 at a concrete input: with a reading of `"5"` parsing to
5 and an ordinary test mode, power is judged available. -/
theorem C5_witness :
    ("none" : String) ≠ "simulate_outage" ∧
    is_power_available parseW "none" (some ⟨some "5"⟩) = true := by
  have h := (C5_availability_rule parseW "none" (some ⟨some "5"⟩)).2.2.2.2
  refine ⟨by decide, ?_⟩
  exact (h ⟨some "5"⟩ "5" 5 (by decide) rfl rfl (by decide) (by decide)).mpr
    (by norm_num)

/-- Claim C6: during recovery over a successful node listing, uncordon is
invoked for exactly those listed nodes that are not the critical node,
report readiness, and are currently unschedulable. -/
theorem C6_uncordon_exactly (cfg : Config) (nodes : List ClusterNode)
    (s : MState) (n : String) :
    Action.uncordon n ∈ (restore_power_procedures cfg (some nodes) s).2 ↔
      ∃ nd, nd ∈ nodes ∧ nd.name = n ∧ n ≠ cfg.critical_node ∧
        node_is_ready nd = true ∧ nd.unschedulable = true := by
  constructor
  · intro h
    have h' : Action.uncordon n ∈ restoreActs cfg nodes := h
    rcases mem_restoreActs h' with ⟨nd, hnd, ha, hc, hr, hu⟩
    injection ha with ha
    refine ⟨nd, hnd, ha.symm, ?_, hr, hu⟩
    rw [ha]
    exact hc
  · rintro ⟨nd, hnd, hname, hc, hr, hu⟩
    have hmem := uncordon_mem_restoreActs hnd (by rw [hname]; exact hc) hr hu
    rw [hname] at hmem
    exact hmem

/-- Witness for C6 at a concrete input: a ready, unschedulable,
non-critical node in the listing is uncordoned. -/
theorem C6_witness :
    Action.uncordon "pi5-01" ∈
      (restore_power_procedures cfgDefault
        (some [⟨"pi5-01", [("Ready", "True")], true⟩]) initState).2 :=
  (C6_uncordon_exactly cfgDefault [⟨"pi5-01", [("Ready", "True")], true⟩]
      initState "pi5-01").mpr
    ⟨⟨"pi5-01", [("Ready", "True")], true⟩, by simp, rfl, by decide, by decide, rfl⟩

/-- Claim C7: whatever the listing outcome (including a failed listing)
and whatever the incoming state, `restore_power_procedures` resets the
tracking state to its initial value; and over a listing with distinct node
names each node is uncordoned at most once — a failed uncordon is not
retried by the procedure. -/
theorem C7_recovery_resets (cfg : Config) (listing : Option (List ClusterNode))
    (s : MState) :
    (restore_power_procedures cfg listing s).1 = initState ∧
    ∀ nodes, listing = some nodes → (nodes.map ClusterNode.name).Nodup →
      ∀ n, ((restore_power_procedures cfg listing s).2.count
        (Action.uncordon n)) ≤ 1 := by
  constructor
  · rfl
  · intro nodes hl hnodup n
    subst hl
    exact restoreActs_count_le_one cfg n nodes hnodup

/-- Witness for C7 at a concrete input: recovery over a one-node listing
resets the state and uncordons that node at most once. -/
theorem C7_witness :
    (restore_power_procedures cfgDefault
        (some [⟨"pi5-01", [("Ready", "True")], true⟩]) initState).1 = initState ∧
    ((restore_power_procedures cfgDefault
        (some [⟨"pi5-01", [("Ready", "True")], true⟩]) initState).2.count
      (Action.uncordon "pi5-01")) ≤ 1 := by
  have h := C7_recovery_resets cfgDefault
    (some [⟨"pi5-01", [("Ready", "True")], true⟩]) initState
  exact ⟨h.1, h.2 [⟨"pi5-01", [("Ready", "True")], true⟩] rfl (by decide) "pi5-01"⟩

/-- Claim C8: for elapsed durations `e1 < e2` under a fixed configuration,
the set of phases whose elapsed-time guard is met at `e2` contains every
phase whose guard is met at `e1`. -/
theorem C8_due_monotone (cfg : Config) (e1 e2 : ℚ) (h : e1 < e2) :
    duePhases cfg e1 ⊆ duePhases cfg e2 := by
  intro p hp
  simp only [duePhases, Finset.mem_filter] at hp ⊢
  exact ⟨hp.1, le_trans hp.2 (le_of_lt h)⟩

/-- Witness for C8 at a concrete input. -/
theorem C8_witness :
    (40 : ℚ) < 100 ∧ duePhases cfgDefault 40 ⊆ duePhases cfgDefault 100 :=
  ⟨by norm_num, C8_due_monotone cfgDefault 40 100 (by norm_num)⟩

/-- Claim C9 counterexample: three of the five phase guards do not compare
elapsed time against a configured threshold — no configuration whatsoever
can move the cordon-priority, drain-priority or cordon/drain-secondary
thresholds off their hard-coded values 30, 60 and 300. -/
theorem C9_counterexample :
    ¬ ∃ cfg : Config,
        phaseThreshold cfg PhaseId.cordonPriority ≠ 30 ∨
        phaseThreshold cfg PhaseId.drainPriority ≠ 60 ∨
        phaseThreshold cfg PhaseId.cordonDrainSecondary ≠ 300 := by
  rintro ⟨cfg, h | h | h⟩ <;> exact h rfl

/-- Claim C9 (amended): only the two power-off thresholds are configurable
(`SHUTDOWN_PI5_01_DELAY`, `SHUTDOWN_OTHERS_DELAY`); the cordon-priority,
drain-priority and cordon/drain-secondary guards use the hard-coded
constants 30, 60 and 300; and each phase emits nothing and changes no
state when elapsed time is below its (fixed or configured) threshold. -/
theorem C9_thresholds (cfg : Config) (env : ActuatorEnv) (e : ℚ) (s : MState) :
    phaseThreshold cfg PhaseId.cordonPriority = 30 ∧
    phaseThreshold cfg PhaseId.drainPriority = 60 ∧
    phaseThreshold cfg PhaseId.shutdownPriority =
      (cfg.shutdown_pi5_01_delay : ℚ) ∧
    phaseThreshold cfg PhaseId.cordonDrainSecondary = 300 ∧
    phaseThreshold cfg PhaseId.shutdownSecondary =
      (cfg.shutdown_others_delay : ℚ) ∧
    (¬ phaseThreshold cfg PhaseId.cordonPriority ≤ e →
        phase1 cfg e s = (s, [])) ∧
    (¬ phaseThreshold cfg PhaseId.drainPriority ≤ e → phase2 cfg e s = []) ∧
    (¬ phaseThreshold cfg PhaseId.shutdownPriority ≤ e →
        phase3 cfg env e s = (s, [])) ∧
    (¬ phaseThreshold cfg PhaseId.cordonDrainSecondary ≤ e →
        phase4 cfg e s = []) ∧
    (¬ phaseThreshold cfg PhaseId.shutdownSecondary ≤ e →
        phase5 cfg env e s = (s, [])) := by
  refine ⟨rfl, rfl, rfl, rfl, rfl, ?_, ?_, ?_, ?_, ?_⟩
  · intro h
    unfold phase1
    rw [if_neg (fun hc => h hc.1)]
  · intro h
    unfold phase2
    rw [if_neg (show ¬ (60 : ℚ) ≤ e from h)]
  · intro h
    unfold phase3
    rw [if_neg (show ¬ (cfg.shutdown_pi5_01_delay : ℚ) ≤ e from h)]
  · intro h
    unfold phase4
    rw [if_neg (show ¬ (300 : ℚ) ≤ e from h)]
  · intro h
    unfold phase5
    rw [if_neg (show ¬ (cfg.shutdown_others_delay : ℚ) ≤ e from h)]

/-- Witness for C9 at a concrete input: at elapsed 10 the drain phase
emits nothing, and its threshold is the constant 60. -/
theorem C9_witness :
    phase2 cfgDefault (10 : ℚ) initState = [] ∧
    phaseThreshold cfgDefault PhaseId.drainPriority = 60 := by
  have h := C9_thresholds cfgDefault envAllOk (10 : ℚ) initState
  exact ⟨h.2.2.2.2.2.2.1 (by decide), h.2.1⟩

/-- Claim C10: on the real path (no dry run, no skip-shutdown), whenever
the remote shutdown command runs to completion — whatever its exit code —
`shutdown_node` reports success and records the node in `nodes_shutdown`;
and a node so recorded is skipped by every later poll of the epoch: no
further power-off is ever invoked on it and it stays recorded. -/
theorem C10_poweroff_ignores_exit (cfg : Config) (env : ActuatorEnv)
    (n : String) (c : ℤ) (s : MState) (hdry : cfg.dry_run = false)
    (hskip : cfg.skip_shutdown = false)
    (hpo : env.powerOff n = PowerOffOutcome.completes c) :
    shutdown_node cfg env n s =
      (true, { s with nodes_shutdown := insert n s.nodes_shutdown }) ∧
    ∀ (polls : List (ℚ × ActuatorEnv)) (s2 : MState), n ∈ s2.nodes_shutdown →
      Action.powerOff n ∉ (pollSeq cfg polls s2).2.flatten ∧
      n ∈ (pollSeq cfg polls s2).1.nodes_shutdown := by
  refine ⟨shutdown_node_completes s hdry hskip hpo, ?_⟩
  intro polls s2 hs2
  exact ⟨pollSeq_no_repeat hs2, pollSeq_set_mono cfg polls s2 hs2⟩

/-- Witness for C10 at a concrete input: the ssh command exits 1 (remote
failure), yet the node is recorded shut down, `shutdown_node` reports
success, and a later poll at elapsed 500 never powers it off again. -/
theorem C10_witness :
    envExit1.powerOff "pi5-01" = PowerOffOutcome.completes 1 ∧
    (shutdown_node cfgDefault envExit1 "pi5-01" initState).1 = true ∧
    "pi5-01" ∈
      (shutdown_node cfgDefault envExit1 "pi5-01" initState).2.nodes_shutdown ∧
    Action.powerOff "pi5-01" ∉
      (pollSeq cfgDefault [((500 : ℚ), envExit1)]
        (shutdown_node cfgDefault envExit1 "pi5-01" initState).2).2.flatten := by
  have h := C10_poweroff_ignores_exit cfgDefault envExit1 "pi5-01" 1 initState
    rfl rfl rfl
  refine ⟨rfl, ?_, ?_, ?_⟩
  · rw [h.1]
  · rw [h.1]
    exact Finset.mem_insert_self _ _
  · refine (h.2 [((500 : ℚ), envExit1)] _ ?_).1
    rw [h.1]
    exact Finset.mem_insert_self _ _

end PowerMonitor
